import Mathlib

/-!
Verification of the Instagram-RSS-Bridge relay core against its
natural-language specification.

The TypeScript sources are shallowly embedded: pure functions become Lean
functions, the key-value store becomes an explicit `String → Option String`
map, network and Telegram-API effects become explicit outcome parameters,
and JavaScript numbers that matter for control flow become `Int` with the
same clamping the runtime performs.  Definitions keep the source names.
-/

/-! ## Format settings (src/src/types/telegram.ts, src/src/constants.ts) -/

/-- The `notification` knob: 'normal' | 'muted'. -/
inductive NotificationMode
  | normal
  | muted
deriving DecidableEq, Repr

/-- The `media` knob: 'enable' | 'disable' | 'only_media'. -/
inductive MediaMode
  | enable
  | disable
  | only_media
deriving DecidableEq, Repr

/-- The `author` knob: 'enable' | 'disable'. -/
inductive AuthorMode
  | enable
  | disable
deriving DecidableEq, Repr

/-- The `sourceFormat` knob: 'title_link' | 'link_only' | 'bare_url' | 'disable'. -/
inductive SourceFormatMode
  | title_link
  | link_only
  | bare_url
  | disable
deriving DecidableEq, Repr

/-- The `linkPreview` knob: 'enable' | 'disable'. -/
inductive LinkPreviewMode
  | enable
  | disable
deriving DecidableEq, Repr

/-- `FormatSettings` from src/src/types/telegram.ts: six presentation knobs.
`lengthLimit` is a JavaScript number (0 = unlimited), embedded as `Int`. -/
structure FormatSettings where
  notification : NotificationMode
  media : MediaMode
  author : AuthorMode
  sourceFormat : SourceFormatMode
  linkPreview : LinkPreviewMode
  lengthLimit : Int
deriving DecidableEq, Repr

/-- `Partial<FormatSettings>`: an override layer where each of the six
fields may be absent (`none` models a key missing from the object). -/
structure FormatOverrides where
  notification : Option NotificationMode := none
  media : Option MediaMode := none
  author : Option AuthorMode := none
  sourceFormat : Option SourceFormatMode := none
  linkPreview : Option LinkPreviewMode := none
  lengthLimit : Option Int := none
deriving DecidableEq, Repr

/-- The empty override layer (an absent / `undefined` argument spreads to
nothing, so it is the same as an object with no keys). -/
def emptyOverrides : FormatOverrides := {}

/-- `DEFAULT_FORMAT_SETTINGS` from src/src/constants.ts. -/
def DEFAULT_FORMAT_SETTINGS : FormatSettings :=
  { notification := NotificationMode.normal
    media := MediaMode.enable
    author := AuthorMode.disable
    sourceFormat := SourceFormatMode.disable
    linkPreview := LinkPreviewMode.disable
    lengthLimit := 0 }

/-- `resolveFormatSettings` from src/src/utils/telegram-format.ts:
object spread `{...DEFAULT_FORMAT_SETTINGS, ...channelDefaults, ...sourceOverrides}`,
i.e. field-by-field: the source override when present, else the channel
default when present, else the hard default. -/
def resolveFormatSettings (channelDefaults sourceOverrides : FormatOverrides) : FormatSettings :=
  { notification := sourceOverrides.notification.getD
      (channelDefaults.notification.getD DEFAULT_FORMAT_SETTINGS.notification)
    media := sourceOverrides.media.getD
      (channelDefaults.media.getD DEFAULT_FORMAT_SETTINGS.media)
    author := sourceOverrides.author.getD
      (channelDefaults.author.getD DEFAULT_FORMAT_SETTINGS.author)
    sourceFormat := sourceOverrides.sourceFormat.getD
      (channelDefaults.sourceFormat.getD DEFAULT_FORMAT_SETTINGS.sourceFormat)
    linkPreview := sourceOverrides.linkPreview.getD
      (channelDefaults.linkPreview.getD DEFAULT_FORMAT_SETTINGS.linkPreview)
    lengthLimit := sourceOverrides.lengthLimit.getD
      (channelDefaults.lengthLimit.getD DEFAULT_FORMAT_SETTINGS.lengthLimit) }

/-- View a fully-resolved settings object as an override layer in which
every field is set (feeding a resolved result back into the cascade). -/
def toOverrides (s : FormatSettings) : FormatOverrides :=
  { notification := some s.notification
    media := some s.media
    author := some s.author
    sourceFormat := some s.sourceFormat
    linkPreview := some s.linkPreview
    lengthLimit := some s.lengthLimit }

/-! ## Feed items (src/src/types/feed.ts) -/

/-- The media element kind union of `FeedItemMedia.type`: 'photo' | 'video'. -/
inductive FeedMediaKind
  | photo
  | video
deriving DecidableEq, Repr

/-- `FeedItemMediaType`: 'photo' | 'video' | 'album' | 'none'. -/
inductive FeedItemMediaType
  | photo
  | video
  | album
  | none
deriving DecidableEq, Repr

/-- `FeedMediaFilter`: 'all' | 'photo' | 'video' | 'album'. -/
inductive FeedMediaFilter
  | all
  | photo
  | video
  | album
deriving DecidableEq, Repr

/-- `FeedItemMedia` from src/src/types/feed.ts. -/
structure FeedItemMedia where
  type : FeedMediaKind
  url : String
  thumbnailUrl : Option String := none
deriving DecidableEq, Repr

/-- `FeedItem` from src/src/types/feed.ts, the canonical normalized item.
`timestamp` is a JavaScript number of seconds, embedded as `Int`. -/
structure FeedItem where
  id : String
  link : String
  title : String
  text : String
  author : String
  feedTitle : String
  feedLink : String
  timestamp : Int
  mediaType : FeedItemMediaType
  media : List FeedItemMedia
deriving DecidableEq, Repr

/-! ## JavaScript string helpers used by the formatter -/

/-- One global single-character regex replacement,
`s.replace(/c/g, r)` for a single character `c`. -/
def replaceCharAll (s : String) (c : Char) (r : String) : String :=
  String.mk ((s.data.map (fun a => if a = c then r.data else [a])).flatten)

/-- `escapeHtml` from src/src/utils/telegram-format.ts:
`str.replace(/&/g,...).replace(/</g,...).replace(/>/g,...)`. -/
def escapeHtml (str : String) : String :=
  replaceCharAll (replaceCharAll (replaceCharAll str '&' "&amp;") '<' "&lt;") '>' "&gt;"

/-- `String.prototype.includes`: substring containment. -/
def strIncludes (s pat : String) : Bool :=
  decide (List.IsInfix pat.data s.data)

/-- The JavaScript regex class `\w` (ASCII word character). -/
def jsWordChar (c : Char) : Bool :=
  c.isAlphanum || c = '_'

/-- The replacement template of the global mention regex
`/@([\w.]+)/g` in `buildTelegramCaption`. -/
def mentionAnchor (name : String) : String :=
  "<a href=\"https://www.instagram.com/" ++ name ++ "\">@" ++ name ++ "</a>"

/-- The replacement template of the global hashtag regex
`/#([\w]+)/g` in `buildTelegramCaption`. -/
def tagAnchor (name : String) : String :=
  "<a href=\"https://www.instagram.com/explore/tags/" ++ name ++ "\">#" ++ name ++ "</a>"

/-- `text.replace(/@([\w.]+)/g, ...)`: left-to-right global scan; an `@`
followed by at least one `[\w.]` character becomes an anchor, replacement
text is not rescanned. -/
def linkifyMentions : List Char → List Char
  | [] => []
  | c :: rest =>
    if c = '@' then
      let run := rest.takeWhile (fun a => jsWordChar a || a = '.')
      if run.length = 0 then
        c :: linkifyMentions rest
      else
        (mentionAnchor (String.mk run)).data ++ linkifyMentions (rest.drop run.length)
    else
      c :: linkifyMentions rest
termination_by l => l.length
decreasing_by
  all_goals simp [List.length_drop]
  all_goals omega

/-- `text.replace(/#([\w]+)/g, ...)`: left-to-right global scan; a `#`
followed by at least one `\w` character becomes an anchor. -/
def linkifyHashtags : List Char → List Char
  | [] => []
  | c :: rest =>
    if c = '#' then
      let run := rest.takeWhile jsWordChar
      if run.length = 0 then
        c :: linkifyHashtags rest
      else
        (tagAnchor (String.mk run)).data ++ linkifyHashtags (rest.drop run.length)
    else
      c :: linkifyHashtags rest
termination_by l => l.length
decreasing_by
  all_goals simp [List.length_drop]
  all_goals omega

/-- `text.substring(0, endIndex)` for an `Int` index: JavaScript clamps a
negative end index to 0, which is exactly `Int.toNat`. -/
def substringTo (s : String) (endIndex : Int) : String :=
  String.mk (s.data.take endIndex.toNat)

/-! ## Message formatter (src/src/utils/telegram-format.ts) -/

/-- `isInstagramItem` from src/src/utils/telegram-format.ts. -/
def isInstagramItem (item : FeedItem) : Bool :=
  strIncludes item.link "instagram.com" || strIncludes item.feedLink "instagram.com"

/-- `buildFooter` from src/src/utils/telegram-format.ts: eight pure string
templates, `sourceFormat` crossed with author visibility. -/
def buildFooter (item : FeedItem) (settings : FormatSettings) : String :=
  let showAuthor := settings.author = AuthorMode.enable ∧ item.author ≠ ""
  let postUrl := item.link
  let sourceName := if item.feedTitle ≠ "" then item.feedTitle else "Source"
  match settings.sourceFormat with
  | SourceFormatMode.title_link =>
      if showAuthor then
        "\n\n<a href=\"" ++ postUrl ++ "\">View on " ++ escapeHtml sourceName ++ "</a> | " ++
          escapeHtml item.author
      else
        "\n\n<a href=\"" ++ postUrl ++ "\">View on " ++ escapeHtml sourceName ++ "</a>"
  | SourceFormatMode.link_only =>
      if showAuthor then
        "\n\n<a href=\"" ++ postUrl ++ "\">" ++ escapeHtml item.author ++ " — " ++
          escapeHtml sourceName ++ "</a>"
      else
        "\n\n<a href=\"" ++ postUrl ++ "\">" ++ escapeHtml sourceName ++ "</a>"
  | SourceFormatMode.bare_url =>
      if showAuthor then
        "\n\n" ++ escapeHtml item.author ++ "\n" ++ postUrl
      else
        "\n\n" ++ postUrl
  | SourceFormatMode.disable =>
      if showAuthor then "\n\n" ++ escapeHtml item.author else ""

/-- The caption body of `buildTelegramCaption` before truncation:
`escapeHtml(item.text)`, with the two Instagram mention/hashtag
linkification replacements applied when the item is an Instagram item. -/
def captionBodyText (item : FeedItem) : String :=
  let t := escapeHtml item.text
  if isInstagramItem item then
    String.mk (linkifyHashtags (linkifyMentions t.data))
  else
    t

/-- The platform caption limit in `buildTelegramCaption`: 4096 for
text-only messages, 1024 for media captions. -/
def telegramCaptionLimit (item : FeedItem) (settings : FormatSettings) : Int :=
  if settings.media = MediaMode.disable ∨ item.mediaType = FeedItemMediaType.none then 4096
  else 1024

/-- The effective limit in `buildTelegramCaption`:
`settings.lengthLimit > 0 ? min(settings.lengthLimit, telegramLimit) : telegramLimit`. -/
def effectiveCaptionLimit (item : FeedItem) (settings : FormatSettings) : Int :=
  if settings.lengthLimit > 0 then
    min settings.lengthLimit (telegramCaptionLimit item settings)
  else
    telegramCaptionLimit item settings

/-- `buildTelegramCaption` from src/src/utils/telegram-format.ts, lines 67-90. -/
def buildTelegramCaption (item : FeedItem) (settings : FormatSettings) : String :=
  let text := captionBodyText item
  let footer := buildFooter item settings
  let maxCaptionBody : Int := effectiveCaptionLimit item settings - footer.length
  let text2 :=
    if (text.length : Int) > maxCaptionBody then
      substringTo text (maxCaptionBody - 1) ++ "…"
    else
      text
  text2 ++ footer

/-- One element of a Telegram media-group payload. -/
structure GroupMediaElem where
  type : FeedMediaKind
  media : String
  caption : Option String := none
  parse_mode : Option String := none
deriving DecidableEq, Repr

/-- `TelegramMediaMessage` from src/src/types/telegram.ts, embedded as a sum
over the `type` discriminant. -/
inductive TelegramMediaMessage
  | text (caption : String)
  | photo (url : Option String) (caption : String)
  | video (url : Option String) (thumbnailUrl : Option String) (caption : String)
  | mediagroup (media : List GroupMediaElem) (caption : String)
deriving DecidableEq, Repr

/-- `formatFeedItem` from src/src/utils/telegram-format.ts, lines 23-65. -/
def formatFeedItem (item : FeedItem) (settings : Option FormatSettings) : TelegramMediaMessage :=
  let resolved := settings.getD DEFAULT_FORMAT_SETTINGS
  let caption :=
    if resolved.media = MediaMode.only_media then buildFooter item resolved
    else buildTelegramCaption item resolved
  if resolved.media = MediaMode.disable then
    TelegramMediaMessage.text caption
  else
    match item.mediaType with
    | FeedItemMediaType.photo =>
        TelegramMediaMessage.photo (item.media.head?.map (fun m => m.url)) caption
    | FeedItemMediaType.video =>
        TelegramMediaMessage.video (item.media.head?.map (fun m => m.url))
          (item.media.head?.bind (fun m => m.thumbnailUrl)) caption
    | FeedItemMediaType.album =>
        if item.media.length = 0 then
          TelegramMediaMessage.text caption
        else
          TelegramMediaMessage.mediagroup
            (item.media.mapIdx (fun idx m =>
              { type := m.type
                media := m.url
                caption := if idx = 0 then some caption else none
                parse_mode := if idx = 0 then some "HTML" else none }))
            caption
    | FeedItemMediaType.none =>
        TelegramMediaMessage.text caption

/-! ## Delivery sender dispatch (src/src/services/telegram-bot/handlers/send-media.ts) -/

/-- What the sender does with a payload; network effects are abstracted to
which send primitive is invoked. -/
inductive SendDispatch
  | sentText
  | sentPhoto
  | sentVideo
  | sentMediaGroup (count : Nat)
  | skippedEmptyGroup
deriving DecidableEq, Repr

/-- `sendMediaGroupMessage` from send-media.ts lines 88-113: a media-group
message with zero elements is skipped before any API call. -/
def sendMediaGroupMessage (media : List GroupMediaElem) : SendDispatch :=
  if media.length = 0 then SendDispatch.skippedEmptyGroup
  else SendDispatch.sentMediaGroup media.length

/-- The dispatch switch of `sendMediaToChannel` from send-media.ts lines 12-40. -/
def sendMediaToChannel (message : TelegramMediaMessage) : SendDispatch :=
  match message with
  | TelegramMediaMessage.text _ => SendDispatch.sentText
  | TelegramMediaMessage.photo _ _ => SendDispatch.sentPhoto
  | TelegramMediaMessage.video _ _ _ => SendDispatch.sentVideo
  | TelegramMediaMessage.mediagroup media _ => sendMediaGroupMessage media

/-- Concrete fixture for the caption-truncation witness: a non-Instagram
photo item with a 16-character body. -/
def truncWitnessItem : FeedItem :=
  { id := "w1"
    link := "https://example.com/p/1"
    title := "t"
    text := "0123456789ABCDEF"
    author := ""
    feedTitle := "Example"
    feedLink := "https://example.com"
    timestamp := 0
    mediaType := FeedItemMediaType.photo
    media := [{ type := FeedMediaKind.photo, url := "https://example.com/a.jpg" }] }

/-- Concrete settings for the caption-truncation witness: a configured
length limit of 10 and an empty footer. -/
def truncWitnessSettings : FormatSettings :=
  { notification := NotificationMode.normal
    media := MediaMode.enable
    author := AuthorMode.disable
    sourceFormat := SourceFormatMode.disable
    linkPreview := LinkPreviewMode.disable
    lengthLimit := 10 }

/-- Concrete fixture for the empty-album witness. -/
def emptyAlbumItem : FeedItem :=
  { id := "w2"
    link := "https://example.com/p/2"
    title := "t"
    text := "body"
    author := "a"
    feedTitle := "Example"
    feedLink := "https://example.com"
    timestamp := 0
    mediaType := FeedItemMediaType.album
    media := [] }

/-! ## Cron pipeline and delivery ledger (src/src/cron/check-feeds.ts) -/

/-- JSON values, the possible results of `JSON.parse` on a stored ledger
blob.  Numbers are embedded as `Int`; only array-ness and string equality
ever influence the dedup logic. -/
inductive Json
  | null
  | bool (b : Bool)
  | num (n : Int)
  | str (s : String)
  | arr (elems : List Json)
  | obj (fields : List (String × Json))

/-- `Array.isArray`. -/
def isJsonArray : Json → Bool
  | Json.arr _ => true
  | _ => false

/-- The observable outcome of reading and `JSON.parse`-ing a stored value:
the key was absent, the text was not valid JSON (`JSON.parse` threw), or it
parsed to a JSON value. -/
inductive StoredRead
  | missing
  | malformed
  | parsed (j : Json)

/-- Lines 111-118 of check-feeds.ts: `sentRaw ? JSON.parse(sentRaw) : []`
guarded by try/catch and `Array.isArray` — a missing value, a parse error,
or a non-array value (the legacy single-pointer format) all leave the sent
list empty. -/
def loadSentLinks : StoredRead → List Json
  | StoredRead.missing => []
  | StoredRead.malformed => []
  | StoredRead.parsed j =>
    match j with
    | Json.arr elems => elems
    | _ => []

/-- Reading a raw stored value: an absent value (or the empty string, which
is falsy) skips the parse entirely; otherwise the ambient JSON parser
decides the outcome. -/
def toStoredRead (raw : Option String) (jsonParse : String → StoredRead) : StoredRead :=
  match raw with
  | none => StoredRead.missing
  | some s => if s = "" then StoredRead.missing else jsonParse s

/-- The strict equality `item.mediaType === filter` used by `filterItems`
(both sides are string unions in the source). -/
def mediaTypeMatchesFilter : FeedItemMediaType → FeedMediaFilter → Bool
  | FeedItemMediaType.photo, FeedMediaFilter.photo => true
  | FeedItemMediaType.video, FeedMediaFilter.video => true
  | FeedItemMediaType.album, FeedMediaFilter.album => true
  | _, _ => false

/-- `filterItems` from check-feeds.ts lines 187-190. -/
def filterItems (items : List FeedItem) (filter : FeedMediaFilter) : List FeedItem :=
  if filter = FeedMediaFilter.all then items
  else items.filter (fun item => mediaTypeMatchesFilter item.mediaType filter)

/-- The raw persisted media-filter values, including the legacy ones. -/
inductive RawMediaFilter
  | all
  | photo
  | video
  | album
  | picture
  | multiple
deriving DecidableEq, Repr

/-- `migrateMediaFilter` from check-feeds.ts lines 195-203. -/
def migrateMediaFilter : RawMediaFilter → FeedMediaFilter
  | RawMediaFilter.picture => FeedMediaFilter.photo
  | RawMediaFilter.multiple => FeedMediaFilter.album
  | RawMediaFilter.all => FeedMediaFilter.all
  | RawMediaFilter.photo => FeedMediaFilter.photo
  | RawMediaFilter.video => FeedMediaFilter.video
  | RawMediaFilter.album => FeedMediaFilter.album

/-- `new Set(sentLinks).has(s)` for a string `s`: SameValueZero membership —
a string is in the set exactly when some element is that same string (a
non-string array element never equals a string). -/
def jsonSetHasStr (sentLinks : List Json) (s : String) : Bool :=
  sentLinks.any (fun j =>
    match j with
    | Json.str t => t = s
    | _ => false)

/-- Line 121 of check-feeds.ts:
`items.filter(item => !sentSet.has(item.link))` — dedup is by the
canonical link against the stored array elements. -/
def newItemsOf (items : List FeedItem) (sentLinks : List Json) : List FeedItem :=
  items.filter (fun item => !jsonSetHasStr sentLinks item.link)

/-- Lines 126-129 of check-feeds.ts: reverse to oldest-first, then
`slice(0, 5)` — at most 5 posts per check. -/
def planPostsToSend (items : List FeedItem) (sentLinks : List Json) : List FeedItem :=
  ((newItemsOf items sentLinks).reverse).take 5

/-- `Array.prototype.slice(-n)`: the last `n` elements. -/
def sliceLast (n : Nat) (l : List α) : List α :=
  l.drop (l.length - n)

/-- Lines 171-175 of check-feeds.ts: when at least one item was sent, append
the sent links and cap the stored ledger at the last 50 entries; when the
whole batch failed, leave the ledger untouched so the items are retried. -/
def updateSentLinks (sentLinks : List Json) (sentItemLinks : List String) : List Json :=
  if sentItemLinks.length = 0 then sentLinks
  else sliceLast 50 (sentLinks ++ sentItemLinks.map Json.str)

/-- The observable outcome of attempting to deliver one item in the send
loop of `checkSource` (lines 140-168): the primary send succeeded; the
primary send failed with a Telegram 429 rate-limit error; the primary send
failed otherwise and the thumbnail+link fallback succeeded; the fallback
itself failed with a 429; or the fallback failed for another reason. -/
inductive ItemSendOutcome
  | sent
  | rateLimited
  | fallbackSent
  | fallbackRateLimited
  | fallbackFailed
deriving DecidableEq, Repr

/-- An item counts as delivered when either the primary send or the
degraded fallback succeeded. -/
def isSendSuccess : ItemSendOutcome → Bool
  | ItemSendOutcome.sent => true
  | ItemSendOutcome.fallbackSent => true
  | _ => false

/-- A 429 rate-limit signal (from the primary send or from the fallback)
breaks out of the batch loop. -/
def stopsBatch : ItemSendOutcome → Bool
  | ItemSendOutcome.rateLimited => true
  | ItemSendOutcome.fallbackRateLimited => true
  | _ => false

/-- The send loop of `checkSource` (lines 139-168), with each item paired
with the outcome the platform produced for it: returns `sentItemLinks`, the
links recorded in the ledger.  A successful (or fallback-successful) send
appends `item.link`; a 429 breaks the loop; a fully failed item is skipped
and the loop continues. -/
def runSendLoop : List (FeedItem × ItemSendOutcome) → List String
  | [] => []
  | (item, ItemSendOutcome.sent) :: rest => item.link :: runSendLoop rest
  | (_, ItemSendOutcome.rateLimited) :: _ => []
  | (item, ItemSendOutcome.fallbackSent) :: rest => item.link :: runSendLoop rest
  | (_, ItemSendOutcome.fallbackRateLimited) :: _ => []
  | (_, ItemSendOutcome.fallbackFailed) :: rest => runSendLoop rest

/-! ## Key-value store, ledger keys and the /seed command -/

/-- The key-value store (Cloudflare KV), as a map from keys to raw strings. -/
def KVStore : Type := String → Option String

/-- `setCached` as an update of the store map. -/
def setCached (kv : KVStore) (key value : String) : KVStore :=
  fun k => if k = key then some value else kv k

/-- `getCached` as a lookup in the store map. -/
def getCached (kv : KVStore) (key : String) : Option String :=
  kv key

/-- `CACHE_PREFIX_TELEGRAM_LASTSEEN` from src/src/constants.ts. -/
def CACHE_PREFIX_TELEGRAM_LASTSEEN : String := "telegram:lastseen:"

/-- Modelled from the spec: the cron reads the delivery ledger under the
`CACHE_PREFIX_TELEGRAM_SENT` prefix (check-feeds.ts line 109 imports it from
src/src/constants.ts, but no definition of it appears in the provided
sources).  The spec describes the ledger as a bounded set record that
replaced the legacy single-pointer watermark, so its prefix is a sent-set
prefix distinct from the last-seen prefix above. -/
def CACHE_PREFIX_TELEGRAM_SENT : String := "telegram:sent:"

/-- The ledger key of a (channel, source) pair, check-feeds.ts line 109. -/
def sentKeyFor (channelId sourceId : String) : String :=
  CACHE_PREFIX_TELEGRAM_SENT ++ channelId ++ ":" ++ sourceId

/-- The legacy last-seen key of a (channel, source) pair,
subscription-commands.ts line 228. -/
def lastSeenKeyFor (channelId sourceId : String) : String :=
  CACHE_PREFIX_TELEGRAM_LASTSEEN ++ channelId ++ ":" ++ sourceId

/-- The per-source body of the `/seed` command (subscription-commands.ts
lines 221-234): when the fetch returned items, store the id of the newest
item under the last-seen key; an empty fetch stores nothing. -/
def seedSource (kv : KVStore) (channelId sourceId : String)
    (fetchedItems : List FeedItem) : KVStore :=
  match fetchedItems with
  | [] => kv
  | item0 :: _ => setCached kv (lastSeenKeyFor channelId sourceId) item0.id

/-- The dedup-relevant read of `checkSource`: look up the ledger value for
the (channel, source) pair and parse it. -/
def readSentLinks (kv : KVStore) (jsonParse : String → StoredRead)
    (channelId sourceId : String) : List Json :=
  loadSentLinks (toStoredRead (getCached kv (sentKeyFor channelId sourceId)) jsonParse)

/-- Stated from the claim wording, for comparison with `newItemsOf`: the
candidate new items are exactly the fetched items whose id is absent from
the stored set of delivered identifiers. -/
def specCandidateItems (items : List FeedItem) (sentLinks : List Json) : List FeedItem :=
  items.filter (fun item => !jsonSetHasStr sentLinks item.id)

/-! ## Multi-tier Instagram fetcher (src/unnamed/part_000, `fetchInstagramData`) -/

/-- A fetched Instagram media node; its internal fields never influence the
tier routing, so only an identity is kept. -/
structure MediaNode where
  shortcode : String
deriving DecidableEq, Repr

/-- `TierError` from src/src/types/instagram.ts:
`{tier: string, status?: number, message: string}`. -/
structure TierError where
  tier : String
  status : Option Int := none
  message : String
deriving DecidableEq, Repr

/-- `TierResult` from part_000 line 72:
`{ nodes: MediaNode[] | null; error?: TierError }`. -/
structure TierResult where
  nodes : Option (List MediaNode) := none
  error : Option TierError := none
deriving DecidableEq, Repr

/-- What one tier attempt observably does: return a `TierResult`, or throw
(a network error, timeout, or JSON failure caught by the per-tier
try/catch). -/
inductive TierBehavior
  | returns (r : TierResult)
  | throws (msg : String)
deriving DecidableEq, Repr

/-- `FeedContext.type` from src/src/types/instagram.ts. -/
inductive FeedContextType
  | username
  | hashtag
  | location
deriving DecidableEq, Repr

/-- The success test of each tier block:
`result.nodes && result.nodes.length > 0` — the returned nodes when the
tier succeeded, else the empty list. -/
def tierSuccessNodes : TierBehavior → List MediaNode
  | TierBehavior.returns r => r.nodes.getD []
  | TierBehavior.throws _ => []

/-- The error one tier contributes when it does not succeed:
`if (result.error) errors.push(result.error)` in the returning case, and
`errors.push({ tier, message: String(err) })` in the catch. -/
def tierRecordedError (name : String) : TierBehavior → Option TierError
  | TierBehavior.returns r => r.error
  | TierBehavior.throws m => some { tier := name, message := m }

/-- `FetchResult` from part_000 (nodes plus accumulated tier errors). -/
structure InstaFetchResult where
  nodes : List MediaNode
  errors : List TierError
deriving DecidableEq, Repr

/-- The shared shape of the four sequential tier blocks of
`fetchInstagramData` (lines 94-141): return the first nonempty node list
with the errors accumulated so far, else push this tier's error (if any)
and continue; when all tiers are exhausted return no nodes and every
accumulated error. -/
def runTiers : List (String × TierBehavior) → List TierError → InstaFetchResult
  | [], errs => { nodes := [], errors := errs }
  | (name, b) :: rest, errs =>
    if tierSuccessNodes b ≠ [] then
      { nodes := tierSuccessNodes b, errors := errs }
    else
      runTiers rest (errs ++ (tierRecordedError name b).toList)

/-- The tiers `fetchInstagramData` actually attempts for a context type:
tier 1 (REST API), tier 3 (GraphQL POST) and tier 4 (Embed) run only for
username contexts; tier 2 (GraphQL GET) always runs. -/
def applicableTiers (ctx : FeedContextType) (t1 t2 t3 t4 : TierBehavior) :
    List (String × TierBehavior) :=
  (if ctx = FeedContextType.username then [("REST API", t1)] else []) ++
    [("GraphQL GET", t2)] ++
    (if ctx = FeedContextType.username then [("GraphQL POST", t3)] else []) ++
    (if ctx = FeedContextType.username then [("Embed", t4)] else [])

/-- `fetchInstagramData` from part_000 lines 89-141, with each tier's
network behavior supplied as a `TierBehavior`. -/
def fetchInstagramData (ctx : FeedContextType) (t1 t2 t3 t4 : TierBehavior) : InstaFetchResult :=
  runTiers (applicableTiers ctx t1 t2 t3 t4) []

/-! ## RSS-Bridge instance failover (src/src/services/source-fetcher.ts) -/

/-- `FetchResult` from src/src/types/feed.ts. -/
structure FetchResult where
  items : List FeedItem
  feedTitle : String
  feedLink : String
  errors : List TierError
deriving DecidableEq, Repr

/-- `RSS_ITEMS_LIMIT` from src/src/constants.ts. -/
def RSS_ITEMS_LIMIT : Nat := 12

/-- `RSS_BRIDGE_INSTANCES` from src/src/services/source-fetcher.ts. -/
def RSS_BRIDGE_INSTANCES : List String :=
  ["https://rssbridge.prenghy.org",
   "https://rss-bridge.sans-nuage.fr",
   "https://rss.bloat.cat"]

/-- The retagging `{ ...e, tier: "rss-bridge:" + instance }` applied to the
errors of a failed instance. -/
def retagError (inst : String) (e : TierError) : TierError :=
  { e with tier := "rss-bridge:" ++ inst }

/-- The placeholder error returned when every instance came back empty
without reporting any error. -/
def rssBridgeEmptyError : TierError :=
  { tier := "rss-bridge", message := "All instances returned empty results" }

/-- The instance loop of `fetchFromRSSBridgeInstances` (source-fetcher.ts
lines 48-82), with the per-URL fetch abstracted as `fetchFeedAt`: the first
instance returning items wins (its items capped at `RSS_ITEMS_LIMIT`, its
own errors kept via the spread); a failed instance appends its retagged
errors to the accumulator; exhaustion returns the accumulated errors, or
the placeholder when none accumulated. -/
def fetchFromRSSBridgeInstancesGo (fetchFeedAt : String → FetchResult) :
    List String → List TierError → FetchResult
  | [], allErrors =>
    { items := [], feedTitle := "", feedLink := ""
      errors := if allErrors.length = 0 then [rssBridgeEmptyError] else allErrors }
  | inst :: rest, allErrors =>
    let result := fetchFeedAt inst
    if result.items.length > 0 then
      { result with items := result.items.take RSS_ITEMS_LIMIT }
    else
      fetchFromRSSBridgeInstancesGo fetchFeedAt rest
        (allErrors ++ result.errors.map (retagError inst))

/-- `fetchFromRSSBridgeInstances` from source-fetcher.ts lines 48-82. -/
def fetchFromRSSBridgeInstances (fetchFeedAt : String → FetchResult) : FetchResult :=
  fetchFromRSSBridgeInstancesGo fetchFeedAt RSS_BRIDGE_INSTANCES []

/-! ## Feed parsers (src/unnamed/part_020, `parseAtomEntry` / `parseRSSItem`) -/

/-- `String.prototype.trim`. -/
def jsTrim (s : String) : String :=
  String.mk (((s.data.dropWhile Char.isWhitespace).reverse.dropWhile Char.isWhitespace).reverse)

/-- JavaScript `a || b` for strings: the empty string is falsy. -/
def jsOrStr (a b : String) : String :=
  if a = "" then b else a

/-- JavaScript `attr() || fallback`: `undefined` and the empty string are
both falsy. -/
def jsOrOpt (a : Option String) (b : String) : String :=
  match a with
  | some s => if s = "" then b else s
  | none => b

/-- `String.prototype.lastIndexOf` for a substring pattern. -/
def lastIndexOfSub (s pat : List Char) : Option Nat :=
  ((List.range s.length).filter (fun i => pat.isPrefixOf (s.drop i))).getLast?

/-- The global regex replacement `.replace(/<[^>]+>/g, '')`: a `<` followed
by at least one non-`>` character and then `>` is removed; an unmatched `<`
is kept and scanning resumes one position later. -/
def stripTags : List Char → List Char
  | [] => []
  | '<' :: rest =>
    let inner := rest.takeWhile (fun a => a ≠ '>')
    if 1 ≤ inner.length ∧ inner.length < rest.length then
      stripTags (rest.drop (inner.length + 1))
    else
      '<' :: stripTags rest
  | c :: rest => c :: stripTags rest
termination_by l => l.length
decreasing_by
  all_goals simp [List.length_drop]
  all_goals omega

/-- Match the tail of `/<br\s*\/?>/i` after the `<`: case-insensitive `br`,
whitespace, optional `/`, then `>`; returns how many characters matched. -/
def matchBrTail (l : List Char) : Option Nat :=
  match l with
  | b :: r :: rest2 =>
    if (b = 'b' ∨ b = 'B') ∧ (r = 'r' ∨ r = 'R') then
      let ws := rest2.takeWhile Char.isWhitespace
      match rest2.drop ws.length with
      | '/' :: '>' :: _ => some (2 + ws.length + 2)
      | '>' :: _ => some (2 + ws.length + 1)
      | _ => none
    else none
  | _ => none

/-- The global regex replacement `.replace(/<br\s*\/?>/gi, '\n')`. -/
def brToNewline : List Char → List Char
  | [] => []
  | c :: rest =>
    if c = '<' then
      match matchBrTail rest with
      | some n => '\n' :: brToNewline (rest.drop n)
      | none => c :: brToNewline rest
    else c :: brToNewline rest
termination_by l => l.length
decreasing_by
  all_goals simp [List.length_drop]
  all_goals omega

/-- `extractTextFromHtml` from part_020 lines 294-313: for the RSS-Bridge
Instagram pattern the caption is the text after the last `<br><br>` when
that text is nonempty after tag stripping; then `<br>` variants become
newlines, remaining tags are stripped, and the result is trimmed. -/
def extractTextFromHtml (html : String) : String :=
  if html = "" then ""
  else
    let l := html.data
    let textSource :=
      match lastIndexOfSub l "<br><br>".data with
      | some brbrIdx =>
        let afterBrbr := l.drop (brbrIdx + 8)
        let stripped := jsTrim (String.mk (stripTags afterBrbr))
        if stripped.length > 0 then afterBrbr else l
      | none => l
    jsTrim (String.mk (stripTags (brToNewline textSource)))

/-- `deriveMediaType` from part_020 lines 315-319. -/
def deriveMediaType (media : List FeedItemMedia) : FeedItemMediaType :=
  match media with
  | [] => FeedItemMediaType.none
  | [m] =>
    if m.type = FeedMediaKind.video then FeedItemMediaType.video else FeedItemMediaType.photo
  | _ => FeedItemMediaType.album

/-- One step of the media collectors: push a media element built from a
present, nonempty, unseen URL, else leave the state unchanged.  The state is
(seen set, collected media). -/
def addMediaIfNew (seen : List String) (acc : List FeedItemMedia) (url : Option String)
    (mk : String → FeedItemMedia) : List String × List FeedItemMedia :=
  match url with
  | some u => if u ≠ "" ∧ u ∉ seen then (u :: seen, acc ++ [mk u]) else (seen, acc)
  | none => (seen, acc)

/-- An Atom `<link rel="enclosure">`: its `href` attribute and its `type`
attribute already defaulted to the empty string (`attr('type') || ''`). -/
structure AtomEnclosure where
  href : Option String
  mimeType : String
deriving DecidableEq, Repr

/-- A `<video><source src=...>` found in the content HTML, with the poster
of its enclosing `<video>`. -/
structure ContentVideoSource where
  src : Option String
  poster : Option String
deriving DecidableEq, Repr

/-- The cheerio query results `parseAtomEntry` reads from one Atom
`<entry>`: raw text of the queried elements and attribute values, plus the
media-bearing queries on the entry and on its content HTML, in document
order. -/
structure AtomEntryData where
  idText : String
  linkAlternateHref : Option String
  linkHref : Option String
  titleText : String
  authorNameText : String
  publishedText : String
  updatedText : String
  contentText : String
  summaryText : String
  enclosures : List AtomEnclosure
  contentVideoSources : List ContentVideoSource
  contentImgSrcs : List (Option String)
deriving DecidableEq, Repr

/-- `extractMedia` from part_020 lines 173-222: Atom enclosures first
(video when the mime type starts with `video/`, else photo), then content
videos, then content images only when nothing was found before, all
deduplicated through the seen set. -/
def extractMedia (entry : AtomEntryData) (contentHtml : String) : List FeedItemMedia :=
  let s1 := entry.enclosures.foldl
    (fun st e =>
      addMediaIfNew st.1 st.2 e.href
        (fun u =>
          { type :=
              if "video/".isPrefixOf e.mimeType then FeedMediaKind.video else FeedMediaKind.photo
            url := u }))
    ([], [])
  let s2 :=
    if contentHtml ≠ "" then
      entry.contentVideoSources.foldl
        (fun st v =>
          addMediaIfNew st.1 st.2 v.src
            (fun u => { type := FeedMediaKind.video, url := u, thumbnailUrl := v.poster }))
        s1
    else s1
  let s3 :=
    if contentHtml ≠ "" ∧ s2.2.length = 0 then
      entry.contentImgSrcs.foldl
        (fun st src =>
          addMediaIfNew st.1 st.2 src (fun u => { type := FeedMediaKind.photo, url := u }))
        s2
    else s2
  s3.2

/-- `parseAtomEntry` from part_020 lines 91-129.  The `dateMs` oracle
models `new Date(text).getTime()` (milliseconds); `Math.floor(ms / 1000)`
is integer floor division. -/
def parseAtomEntry (entry : AtomEntryData) (dateMs : String → Int)
    (feedTitle feedLink : String) : FeedItem :=
  let id := jsTrim entry.idText
  let link := jsOrOpt entry.linkAlternateHref (jsOrOpt entry.linkHref "")
  let title := jsTrim entry.titleText
  let author := jsTrim entry.authorNameText
  let published := jsOrStr entry.publishedText entry.updatedText
  let timestamp := if published ≠ "" then Int.fdiv (dateMs published) 1000 else 0
  let contentHtml := jsOrStr entry.contentText entry.summaryText
  let media := extractMedia entry contentHtml
  let text := extractTextFromHtml contentHtml
  let mediaType := deriveMediaType media
  { id := jsOrStr id (jsOrStr link "")
    link := link
    title := title
    text := text
    author := author
    feedTitle := feedTitle
    feedLink := feedLink
    timestamp := timestamp
    mediaType := mediaType
    media := media }

/-- An RSS `<enclosure>`: `url` attribute and defaulted `type` attribute. -/
structure RSSEnclosure where
  url : Option String
  mimeType : String
deriving DecidableEq, Repr

/-- A `<media:content>`: `url`, defaulted `medium` and `type` attributes. -/
structure RSSMediaContent where
  url : Option String
  medium : String
  mimeType : String
deriving DecidableEq, Repr

/-- The cheerio query results `parseRSSItem` reads from one RSS `<item>`. -/
structure RSSItemData where
  guidText : String
  linkText : String
  titleText : String
  authorText : String
  dcCreatorText : String
  pubDateText : String
  contentEncodedText : String
  descriptionText : String
  enclosures : List RSSEnclosure
  mediaContents : List RSSMediaContent
  mediaThumbnailUrl : Option String
  contentVideoSrcs : List (Option String)
  contentImgSrcs : List (Option String)
deriving DecidableEq, Repr

/-- `extractMediaFromRSS` from part_020 lines 227-288: `<enclosure>`
elements, then `<media:content>` elements (video by `medium` or mime type,
thumbnail from `<media:thumbnail>`), then the content-HTML fallback (videos,
then images) only when nothing was found. -/
def extractMediaFromRSS (entry : RSSItemData) (contentHtml : String) : List FeedItemMedia :=
  let s1 := entry.enclosures.foldl
    (fun st e =>
      addMediaIfNew st.1 st.2 e.url
        (fun u =>
          { type :=
              if "video/".isPrefixOf e.mimeType then FeedMediaKind.video else FeedMediaKind.photo
            url := u }))
    ([], [])
  let s2 := entry.mediaContents.foldl
    (fun st m =>
      addMediaIfNew st.1 st.2 m.url
        (fun u =>
          { type :=
              if m.medium = "video" ∨ "video/".isPrefixOf m.mimeType then FeedMediaKind.video
              else FeedMediaKind.photo
            url := u
            thumbnailUrl := entry.mediaThumbnailUrl }))
    s1
  let s3 :=
    if s2.2.length = 0 ∧ contentHtml ≠ "" then
      let sv := entry.contentVideoSrcs.foldl
        (fun st src =>
          addMediaIfNew st.1 st.2 src (fun u => { type := FeedMediaKind.video, url := u }))
        s2
      if sv.2.length = 0 then
        entry.contentImgSrcs.foldl
          (fun st src =>
            addMediaIfNew st.1 st.2 src (fun u => { type := FeedMediaKind.photo, url := u }))
          sv
      else sv
    else s2
  s3.2

/-- `parseRSSItem` from part_020 lines 131-168. -/
def parseRSSItem (entry : RSSItemData) (dateMs : String → Int)
    (feedTitle feedLink : String) : FeedItem :=
  let guid := jsTrim entry.guidText
  let link := jsTrim entry.linkText
  let title := jsTrim entry.titleText
  let author := jsOrStr (jsTrim entry.authorText) (jsOrStr (jsTrim entry.dcCreatorText) "")
  let pubDate := entry.pubDateText
  let timestamp := if pubDate ≠ "" then Int.fdiv (dateMs pubDate) 1000 else 0
  let contentHtml := jsOrStr entry.contentEncodedText entry.descriptionText
  let media := extractMediaFromRSS entry contentHtml
  let text := extractTextFromHtml contentHtml
  let mediaType := deriveMediaType media
  { id := jsOrStr guid (jsOrStr link "")
    link := link
    title := title
    text := text
    author := author
    feedTitle := feedTitle
    feedLink := feedLink
    timestamp := timestamp
    mediaType := mediaType
    media := media }

/-! ## Concrete fixtures for witnesses and counterexamples -/

/-- A date oracle for concrete parses (its value never reaches the id). -/
def constDateMs : String → Int := fun _ => 0

/-- An Atom entry with no id and no link, content "caption A". -/
def noIdEntryA : AtomEntryData :=
  { idText := "", linkAlternateHref := none, linkHref := none, titleText := ""
    authorNameText := "", publishedText := "", updatedText := ""
    contentText := "caption A", summaryText := ""
    enclosures := [], contentVideoSources := [], contentImgSrcs := [] }

/-- An Atom entry with no id and no link, content "caption B". -/
def noIdEntryB : AtomEntryData :=
  { idText := "", linkAlternateHref := none, linkHref := none, titleText := ""
    authorNameText := "", publishedText := "", updatedText := ""
    contentText := "caption B", summaryText := ""
    enclosures := [], contentVideoSources := [], contentImgSrcs := [] }

/-- An Atom entry carrying a stable entry id (with surrounding whitespace)
and an alternate link. -/
def atomEntryWithId : AtomEntryData :=
  { idText := " tag:rss-bridge,2024:p1 "
    linkAlternateHref := some "https://www.instagram.com/p/P1/"
    linkHref := none, titleText := "", authorNameText := ""
    publishedText := "", updatedText := "", contentText := "", summaryText := ""
    enclosures := [], contentVideoSources := [], contentImgSrcs := [] }

/-- An RSS item with a guid differing from its link. -/
def rssItemWithGuid : RSSItemData :=
  { guidText := "guid-42", linkText := "https://example.com/42", titleText := ""
    authorText := "", dcCreatorText := "", pubDateText := ""
    contentEncodedText := "", descriptionText := ""
    enclosures := [], mediaContents := [], mediaThumbnailUrl := none
    contentVideoSrcs := [], contentImgSrcs := [] }

/-- A parsed feed item whose id (the Atom entry id / RSS guid) differs from
its canonical link, as RSS-Bridge Atom feeds produce. -/
def dedupMismatchItem : FeedItem :=
  { id := "tag:rss-bridge,2024:post-1"
    link := "https://www.instagram.com/p/ABC/"
    title := "t"
    text := "hello"
    author := ""
    feedTitle := "user - Instagram"
    feedLink := "https://www.instagram.com/user/"
    timestamp := 10
    mediaType := FeedItemMediaType.photo
    media := [] }

/-- A ledger that already contains the link of `dedupMismatchItem`. -/
def dedupMismatchLedger : List Json :=
  [Json.str "https://www.instagram.com/p/ABC/"]

/-- A concrete fetched item for the seed scenario. -/
def seedWitnessItem : FeedItem :=
  { id := "https://www.instagram.com/p/SEED1/"
    link := "https://www.instagram.com/p/SEED1/"
    title := "t"
    text := "hello"
    author := ""
    feedTitle := "user - Instagram"
    feedLink := "https://www.instagram.com/user/"
    timestamp := 100
    mediaType := FeedItemMediaType.photo
    media := [] }

/-- The store after running `/seed` on an empty store for channel
`-100123`, source `usr_a1b2c3`, with one fetched item. -/
def seededKV : KVStore :=
  seedSource (fun _ => none) "-100123" "usr_a1b2c3" [seedWitnessItem]

/-- A numbered concrete post for batch scenarios. -/
def batchItem (k : Nat) : FeedItem :=
  { id := "post-" ++ toString k
    link := "https://example.com/p/" ++ toString k
    title := ""
    text := ""
    author := ""
    feedTitle := "F"
    feedLink := "https://example.com"
    timestamp := (k : Int)
    mediaType := FeedItemMediaType.photo
    media := [] }

/-- The rate-limit scenario from the spec: a batch of 5 items where the
platform accepts items 1-2 and rejects item 3 with a 429. -/
def rateLimitBatch : List (FeedItem × ItemSendOutcome) :=
  [(batchItem 1, ItemSendOutcome.sent),
   (batchItem 2, ItemSendOutcome.sent),
   (batchItem 3, ItemSendOutcome.rateLimited),
   (batchItem 4, ItemSendOutcome.sent),
   (batchItem 5, ItemSendOutcome.sent)]

/-- 51 distinct identifiers for the ledger-cap witness. -/
def manyIds : List String :=
  (List.range 51).map (fun k => "p" ++ toString k)

/-- The per-instance responses of the failover counterexample: the first
instance answers HTTP 403, the second returns two valid items, the third is
never reached. -/
def rssScenarioFetch : String → FetchResult :=
  fun inst =>
    if inst = "https://rssbridge.prenghy.org" then
      { items := [], feedTitle := "", feedLink := ""
        errors := [{ tier := "fetch", status := some 403, message := "HTTP 403" }] }
    else if inst = "https://rss-bridge.sans-nuage.fr" then
      { items := [batchItem 1, batchItem 2], feedTitle := "F", feedLink := "https://example.com"
        errors := [] }
    else
      { items := [], feedTitle := "", feedLink := "", errors := [] }

/-- The 403 error of the failed first tier in the Instagram failover
witness. -/
def tier1Error403 : TierError :=
  { tier := "REST API", status := some 403, message := "HTTP 403" }

/-- Two concrete media nodes for the failover witness. -/
def twoNodes : List MediaNode :=
  [{ shortcode := "AAA" }, { shortcode := "BBB" }]

/-! ## Theorems -/

/-- Claim C5: `resolveFormatSettings` is total (all six fields are present in
the result by construction), each field is taken from the source override
when set there, else from the channel default when set there, else from the
hard default; and the merge is idempotent: feeding the resolved result back
in as an override layer yields the same settings, whatever the other layer is. -/
theorem resolveFormatSettings_cascade_and_idempotent
    (cd so : FormatOverrides) :
    ((∀ v, so.notification = some v → (resolveFormatSettings cd so).notification = v) ∧
      (so.notification = none → ∀ v, cd.notification = some v →
        (resolveFormatSettings cd so).notification = v) ∧
      (so.notification = none → cd.notification = none →
        (resolveFormatSettings cd so).notification = DEFAULT_FORMAT_SETTINGS.notification)) ∧
    ((∀ v, so.media = some v → (resolveFormatSettings cd so).media = v) ∧
      (so.media = none → ∀ v, cd.media = some v → (resolveFormatSettings cd so).media = v) ∧
      (so.media = none → cd.media = none →
        (resolveFormatSettings cd so).media = DEFAULT_FORMAT_SETTINGS.media)) ∧
    ((∀ v, so.author = some v → (resolveFormatSettings cd so).author = v) ∧
      (so.author = none → ∀ v, cd.author = some v → (resolveFormatSettings cd so).author = v) ∧
      (so.author = none → cd.author = none →
        (resolveFormatSettings cd so).author = DEFAULT_FORMAT_SETTINGS.author)) ∧
    ((∀ v, so.sourceFormat = some v → (resolveFormatSettings cd so).sourceFormat = v) ∧
      (so.sourceFormat = none → ∀ v, cd.sourceFormat = some v →
        (resolveFormatSettings cd so).sourceFormat = v) ∧
      (so.sourceFormat = none → cd.sourceFormat = none →
        (resolveFormatSettings cd so).sourceFormat = DEFAULT_FORMAT_SETTINGS.sourceFormat)) ∧
    ((∀ v, so.linkPreview = some v → (resolveFormatSettings cd so).linkPreview = v) ∧
      (so.linkPreview = none → ∀ v, cd.linkPreview = some v →
        (resolveFormatSettings cd so).linkPreview = v) ∧
      (so.linkPreview = none → cd.linkPreview = none →
        (resolveFormatSettings cd so).linkPreview = DEFAULT_FORMAT_SETTINGS.linkPreview)) ∧
    ((∀ v, so.lengthLimit = some v → (resolveFormatSettings cd so).lengthLimit = v) ∧
      (so.lengthLimit = none → ∀ v, cd.lengthLimit = some v →
        (resolveFormatSettings cd so).lengthLimit = v) ∧
      (so.lengthLimit = none → cd.lengthLimit = none →
        (resolveFormatSettings cd so).lengthLimit = DEFAULT_FORMAT_SETTINGS.lengthLimit)) ∧
    (∀ cd2, resolveFormatSettings cd2 (toOverrides (resolveFormatSettings cd so)) =
      resolveFormatSettings cd so) := by
  refine ⟨⟨?_, ?_, ?_⟩, ⟨?_, ?_, ?_⟩, ⟨?_, ?_, ?_⟩, ⟨?_, ?_, ?_⟩, ⟨?_, ?_, ?_⟩, ⟨?_, ?_, ?_⟩, ?_⟩ <;>
    simp_all [resolveFormatSettings, toOverrides]

/-- Witness for C5, the cascade scenario given in the spec: a channel default of
`media := disable` with no source override resolves to `disable`, and a
source override of `media := enable` over that same channel default resolves
to `enable`. -/
theorem resolveFormatSettings_cascade_witness :
    (resolveFormatSettings { media := some MediaMode.disable } emptyOverrides).media =
      MediaMode.disable ∧
    (resolveFormatSettings { media := some MediaMode.disable }
      { media := some MediaMode.enable }).media = MediaMode.enable := by
  constructor
  · exact ((resolveFormatSettings_cascade_and_idempotent
      { media := some MediaMode.disable } emptyOverrides).2.1.2.1 rfl MediaMode.disable rfl)
  · exact ((resolveFormatSettings_cascade_and_idempotent
      { media := some MediaMode.disable }
      { media := some MediaMode.enable }).2.1.1 MediaMode.enable rfl)

/-- Bridge between `String.length` and the underlying character list. -/
theorem string_length_data (s : String) : s.length = s.data.length := rfl

/-- Claim C4: when the caption body of length L plus footer of length F
exceeds the effective limit E (the configured limit when positive, capped by
the platform limit of 4096 for text-only messages and 1024 for media
captions), `buildTelegramCaption` truncates the body to the JavaScript
`substring(0, E-F-1)` prefix (exactly E-F-1 characters whenever the footer
fits below the limit, i.e. F < E), appends one ellipsis character, and then
appends the footer unmodified. -/
theorem buildTelegramCaption_truncation (item : FeedItem) (settings : FormatSettings)
    (hover : ((captionBodyText item).length : Int) +
        ((buildFooter item settings).length : Int) >
      effectiveCaptionLimit item settings) :
    buildTelegramCaption item settings =
      (substringTo (captionBodyText item)
          (effectiveCaptionLimit item settings -
            ((buildFooter item settings).length : Int) - 1) ++ "…") ++
        buildFooter item settings ∧
    (((buildFooter item settings).length : Int) < effectiveCaptionLimit item settings →
      ((substringTo (captionBodyText item)
          (effectiveCaptionLimit item settings -
            ((buildFooter item settings).length : Int) - 1)).length : Int) =
        effectiveCaptionLimit item settings -
          ((buildFooter item settings).length : Int) - 1) := by
  constructor
  · simp only [buildTelegramCaption]
    split
    · rfl
    · exfalso
      omega
  · intro hF
    have hLd : (captionBodyText item).data.length = (captionBodyText item).length := rfl
    have hFd : (buildFooter item settings).data.length = (buildFooter item settings).length := rfl
    simp only [substringTo, string_length_data, List.length_take]
    omega

/-- Witness for C4: a 16-character body, an empty footer and a configured
limit of 10 truncate to 9 characters plus one ellipsis. -/
theorem buildTelegramCaption_truncation_witness :
    (((captionBodyText truncWitnessItem).length : Int) +
        ((buildFooter truncWitnessItem truncWitnessSettings).length : Int) >
      effectiveCaptionLimit truncWitnessItem truncWitnessSettings) ∧
    buildTelegramCaption truncWitnessItem truncWitnessSettings =
      (substringTo (captionBodyText truncWitnessItem)
          (effectiveCaptionLimit truncWitnessItem truncWitnessSettings -
            ((buildFooter truncWitnessItem truncWitnessSettings).length : Int) - 1) ++ "…") ++
        buildFooter truncWitnessItem truncWitnessSettings :=
  ⟨by decide,
    (buildTelegramCaption_truncation truncWitnessItem truncWitnessSettings (by decide)).1⟩

/-- Claim C10: an item whose `mediaType` is album but whose media list is
empty is formatted as a text payload, never a media group; and the sender
skips a media-group message with zero elements instead of attempting a
grouped send. -/
theorem formatFeedItem_emptyAlbum_skipsGroup (item : FeedItem) (settings : Option FormatSettings)
    (halbum : item.mediaType = FeedItemMediaType.album) (hempty : item.media = []) :
    (∃ caption, formatFeedItem item settings = TelegramMediaMessage.text caption) ∧
    (∀ caption, sendMediaToChannel (TelegramMediaMessage.mediagroup [] caption) =
      SendDispatch.skippedEmptyGroup) := by
  constructor
  · refine ⟨if (settings.getD DEFAULT_FORMAT_SETTINGS).media = MediaMode.only_media then
      buildFooter item (settings.getD DEFAULT_FORMAT_SETTINGS)
    else buildTelegramCaption item (settings.getD DEFAULT_FORMAT_SETTINGS), ?_⟩
    by_cases hd : (settings.getD DEFAULT_FORMAT_SETTINGS).media = MediaMode.disable <;>
      simp [formatFeedItem, halbum, hempty, hd]
  · intro caption
    rfl

/-- Witness for C10: the concrete empty-album item is formatted as text. -/
theorem formatFeedItem_emptyAlbum_witness :
    emptyAlbumItem.mediaType = FeedItemMediaType.album ∧ emptyAlbumItem.media = [] ∧
    (∃ caption, formatFeedItem emptyAlbumItem none = TelegramMediaMessage.text caption) :=
  ⟨rfl, rfl, (formatFeedItem_emptyAlbum_skipsGroup emptyAlbumItem none rfl rfl).1⟩

/-- `sliceLast` is right-take. -/
theorem sliceLast_eq_rtake (n : Nat) (l : List α) : sliceLast n l = l.rtake n := rfl

/-- Capping an already-capped ledger after an append caps the whole stream. -/
theorem sliceLast_append_sliceLast (n : Nat) (x y : List α) :
    sliceLast n (sliceLast n x ++ y) = sliceLast n (x ++ y) := by
  rw [sliceLast_eq_rtake, sliceLast_eq_rtake, sliceLast_eq_rtake,
    List.rtake_eq_reverse_take_reverse, List.rtake_eq_reverse_take_reverse,
    List.rtake_eq_reverse_take_reverse]
  congr 1
  rw [List.reverse_append, List.reverse_append, List.reverse_reverse]
  rw [List.take_append_eq_append_take, List.take_append_eq_append_take]
  congr 1
  rw [List.take_take]
  congr 1
  omega

/-- The capped ledger never exceeds the cap. -/
theorem sliceLast_length_le (n : Nat) (l : List α) : (sliceLast n l).length ≤ n := by
  simp [sliceLast, List.length_drop]
  omega

/-- Folding ledger updates over a history of recorded batches keeps exactly
the last 50 entries of the whole append stream. -/
theorem foldl_updateSentLinks (batches : List (List String)) :
    ∀ initial : List Json, initial.length ≤ 50 →
      List.foldl updateSentLinks initial batches =
        sliceLast 50 (initial ++ (batches.flatten).map Json.str) := by
  induction batches with
  | nil =>
    intro initial h
    have h0 : initial.length - 50 = 0 := Nat.sub_eq_zero_of_le h
    simp [sliceLast, h0]
  | cons b bs ih =>
    intro initial h
    simp only [List.foldl_cons]
    by_cases hb : b.length = 0
    · have hb' : b = [] := List.length_eq_zero.mp hb
      rw [show updateSentLinks initial b = initial from by simp [updateSentLinks, hb]]
      rw [ih initial h]
      simp [hb']
    · rw [show updateSentLinks initial b = sliceLast 50 (initial ++ b.map Json.str) from by
        simp [updateSentLinks, hb]]
      rw [ih _ (sliceLast_length_le 50 _)]
      rw [sliceLast_append_sliceLast]
      congr 1
      simp [List.map_append, List.append_assoc]

/-- Claim C6: starting from any ledger within the cap, after recording more
than 50 identifiers in total the stored ledger is exactly the last 50
entries of the full append stream (most recent 50, oldest evicted first),
its length is exactly 50, and at no intermediate point does it exceed 50. -/
theorem checkSource_ledger_cap (initial : List Json) (batches : List (List String))
    (hinit : initial.length ≤ 50)
    (htotal : 50 < initial.length + (batches.flatten).length) :
    List.foldl updateSentLinks initial batches =
      sliceLast 50 (initial ++ (batches.flatten).map Json.str) ∧
    (List.foldl updateSentLinks initial batches).length = 50 ∧
    ∀ pre suf, batches = pre ++ suf →
      (List.foldl updateSentLinks initial pre).length ≤ 50 := by
  refine ⟨foldl_updateSentLinks batches initial hinit, ?_, ?_⟩
  · rw [foldl_updateSentLinks batches initial hinit]
    simp only [sliceLast, List.length_drop, List.length_append, List.length_map]
    omega
  · intro pre suf hsplit
    rw [foldl_updateSentLinks pre initial hinit]
    exact sliceLast_length_le 50 _

/-- Witness for C6: 51 distinct identifiers recorded on an empty ledger
leave exactly 50 stored entries. -/
theorem checkSource_ledger_cap_witness :
    ([] : List Json).length ≤ 50 ∧
    50 < ([] : List Json).length + ([manyIds].flatten).length ∧
    (List.foldl updateSentLinks [] [manyIds]).length = 50 := by
  refine ⟨by simp, by simp [manyIds], ?_⟩
  exact (checkSource_ledger_cap [] [manyIds] (by simp) (by simp [manyIds])).2.1

/-- Every link the send loop records comes from a batch item whose send
succeeded directly or through the fallback. -/
theorem runSendLoop_mem (batch : List (FeedItem × ItemSendOutcome)) :
    ∀ lnk ∈ runSendLoop batch,
      ∃ p, p ∈ batch ∧ p.1.link = lnk ∧ isSendSuccess p.2 = true := by
  induction batch with
  | nil => simp [runSendLoop]
  | cons p rest ih =>
    obtain ⟨item, o⟩ := p
    intro lnk hlnk
    cases o with
    | sent =>
      rcases List.mem_cons.mp hlnk with h | h
      · exact ⟨(item, ItemSendOutcome.sent), List.mem_cons_self _ _, h.symm, rfl⟩
      · obtain ⟨q, hq, hql, hqs⟩ := ih lnk h
        exact ⟨q, List.mem_cons_of_mem _ hq, hql, hqs⟩
    | rateLimited => simp [runSendLoop] at hlnk
    | fallbackSent =>
      rcases List.mem_cons.mp hlnk with h | h
      · exact ⟨(item, ItemSendOutcome.fallbackSent), List.mem_cons_self _ _, h.symm, rfl⟩
      · obtain ⟨q, hq, hql, hqs⟩ := ih lnk h
        exact ⟨q, List.mem_cons_of_mem _ hq, hql, hqs⟩
    | fallbackRateLimited => simp [runSendLoop] at hlnk
    | fallbackFailed =>
      obtain ⟨q, hq, hql, hqs⟩ := ih lnk hlnk
      exact ⟨q, List.mem_cons_of_mem _ hq, hql, hqs⟩

/-- A prefix of successful sends records exactly its links, in order. -/
theorem runSendLoop_append_success (pre rest : List (FeedItem × ItemSendOutcome))
    (h : ∀ q ∈ pre, isSendSuccess q.2 = true) :
    runSendLoop (pre ++ rest) = pre.map (fun q => q.1.link) ++ runSendLoop rest := by
  induction pre with
  | nil => simp
  | cons p pre ih =>
    obtain ⟨item, o⟩ := p
    have ho : isSendSuccess o = true := h _ (List.mem_cons_self _ _)
    have hrest : ∀ q ∈ pre, isSendSuccess q.2 = true :=
      fun q hq => h q (List.mem_cons_of_mem _ hq)
    cases o with
    | sent => simp [runSendLoop, ih hrest]
    | rateLimited => simp [isSendSuccess] at ho
    | fallbackSent => simp [runSendLoop, ih hrest]
    | fallbackRateLimited => simp [isSendSuccess] at ho
    | fallbackFailed => simp [isSendSuccess] at ho

/-- A rate-limit outcome stops the loop: nothing at or after it is recorded. -/
theorem runSendLoop_stops (item : FeedItem) (o : ItemSendOutcome)
    (post : List (FeedItem × ItemSendOutcome)) (ho : stopsBatch o = true) :
    runSendLoop ((item, o) :: post) = [] := by
  cases o with
  | sent => simp [stopsBatch] at ho
  | rateLimited => rfl
  | fallbackSent => simp [stopsBatch] at ho
  | fallbackRateLimited => rfl
  | fallbackFailed => simp [stopsBatch] at ho

/-- A link absent from the old ledger and from the freshly recorded links is
absent from the updated ledger. -/
theorem not_hasStr_updateSentLinks (old : List Json) (recorded : List String) (s : String)
    (h1 : jsonSetHasStr old s = false) (h2 : s ∉ recorded) :
    jsonSetHasStr (updateSentLinks old recorded) s = false := by
  unfold updateSentLinks
  split
  · exact h1
  · rw [jsonSetHasStr, List.any_eq_false]
    intro j hj
    have hj' : j ∈ old ++ recorded.map Json.str := List.drop_subset _ _ hj
    rcases List.mem_append.mp hj' with hold | hnew
    · have := List.any_eq_false.mp h1 j hold
      simpa using this
    · obtain ⟨t, ht, rfl⟩ := List.mem_map.mp hnew
      simp only [decide_eq_true_eq]
      intro hts
      exact h2 (hts ▸ ht)

/-- Claim C1: a link enters the recorded ledger batch only when its send
succeeded (directly or through the degraded fallback); a fully failed item
is never recorded; and when the platform rate-limits at item k after a
successful prefix, exactly the links of items 1..k-1 are recorded, and item
k and everything after it remain delivery candidates on the next cycle. -/
theorem checkSource_records_only_successes (batch : List (FeedItem × ItemSendOutcome)) :
    (∀ lnk ∈ runSendLoop batch,
      ∃ p, p ∈ batch ∧ p.1.link = lnk ∧ isSendSuccess p.2 = true) ∧
    (∀ pre item o post, batch = pre ++ (item, o) :: post →
      stopsBatch o = true → (∀ q ∈ pre, isSendSuccess q.2 = true) →
      runSendLoop batch = pre.map (fun q => q.1.link)) ∧
    (∀ pre item o post, batch = pre ++ (item, o) :: post →
      stopsBatch o = true → (∀ q ∈ pre, isSendSuccess q.2 = true) →
      ∀ later ∈ (item, o) :: post,
        later.1.link ∉ pre.map (fun q => q.1.link) →
        later.1.link ∉ runSendLoop batch ∧
        ∀ old : List Json, jsonSetHasStr old later.1.link = false →
          ∀ future : List FeedItem, later.1 ∈ future →
            later.1 ∈ newItemsOf future (updateSentLinks old (runSendLoop batch))) := by
  refine ⟨runSendLoop_mem batch, ?_, ?_⟩
  · intro pre item o post hsplit ho hpre
    subst hsplit
    rw [runSendLoop_append_success pre _ hpre, runSendLoop_stops item o post ho,
      List.append_nil]
  · intro pre item o post hsplit ho hpre later _ hnot
    have hrec : runSendLoop batch = pre.map (fun q => q.1.link) := by
      subst hsplit
      rw [runSendLoop_append_success pre _ hpre, runSendLoop_stops item o post ho,
        List.append_nil]
    have hnotrec : later.1.link ∉ runSendLoop batch := by rw [hrec]; exact hnot
    refine ⟨hnotrec, fun old hold future hfut => ?_⟩
    have hupd : jsonSetHasStr (updateSentLinks old (runSendLoop batch)) later.1.link = false :=
      not_hasStr_updateSentLinks _ _ _ hold hnotrec
    simp [newItemsOf, List.mem_filter, hupd, hfut]

/-- Witness for C1, the rate-limit scenario from the spec: in a batch of 5
where item 3 is rate-limited, exactly the links of items 1 and 2 are
recorded. -/
theorem checkSource_records_only_successes_witness :
    runSendLoop rateLimitBatch = [(batchItem 1).link, (batchItem 2).link] := by
  have h := (checkSource_records_only_successes rateLimitBatch).2.1
    [(batchItem 1, ItemSendOutcome.sent), (batchItem 2, ItemSendOutcome.sent)]
    (batchItem 3) ItemSendOutcome.rateLimited
    [(batchItem 4, ItemSendOutcome.sent), (batchItem 5, ItemSendOutcome.sent)]
    rfl rfl (by decide)
  simpa using h

/-- Counterexample for C3: dedup is keyed by the canonical link, not by the
item id.  For an item whose id (an Atom entry id) differs from its link,
with the link already stored in the ledger, the claim predicts the item is
a delivery candidate while `checkSource` filters it out. -/
theorem newItems_filter_by_link_not_id :
    specCandidateItems [dedupMismatchItem] dedupMismatchLedger = [dedupMismatchItem] ∧
    newItemsOf [dedupMismatchItem] dedupMismatchLedger = [] ∧
    specCandidateItems [dedupMismatchItem] dedupMismatchLedger ≠
      newItemsOf [dedupMismatchItem] dedupMismatchLedger := by
  refine ⟨?_, ?_, ?_⟩ <;> decide

/-- Claim C3 (amended: dedup is by the canonical link, not the id): the
candidate new items are exactly the fetched items whose link is absent from
the stored set; delivery is oldest-first (reversal of the newest-first
fetch order), capped at 5 per cycle; and an item beyond the cap is neither
sent nor recorded, so it stays a delivery candidate for the next cycle. -/
theorem checkSource_candidates_and_cap (items : List FeedItem) (sentLinks : List Json) :
    (∀ item, item ∈ newItemsOf items sentLinks ↔
      item ∈ items ∧ jsonSetHasStr sentLinks item.link = false) ∧
    planPostsToSend items sentLinks = (newItemsOf items sentLinks).reverse.take 5 ∧
    (planPostsToSend items sentLinks).length ≤ 5 ∧
    (items.Pairwise (fun a b => b.timestamp ≤ a.timestamp) →
      (planPostsToSend items sentLinks).Pairwise (fun a b => a.timestamp ≤ b.timestamp)) ∧
    (∀ item ∈ (newItemsOf items sentLinks).reverse.drop 5,
      ((newItemsOf items sentLinks).map (fun i => i.link)).Nodup →
      item.link ∉ (planPostsToSend items sentLinks).map (fun i => i.link) ∧
      ∀ batch : List (FeedItem × ItemSendOutcome),
        batch.map Prod.fst = planPostsToSend items sentLinks →
        item.link ∉ runSendLoop batch) := by
  refine ⟨?_, rfl, ?_, ?_, ?_⟩
  · intro item
    simp [newItemsOf, List.mem_filter]
  · simp only [planPostsToSend, List.length_take]
    omega
  · intro h
    have h1 : (newItemsOf items sentLinks).Pairwise (fun a b => b.timestamp ≤ a.timestamp) :=
      List.Pairwise.sublist (List.filter_sublist _) h
    have h2 : (newItemsOf items sentLinks).reverse.Pairwise
        (fun a b => a.timestamp ≤ b.timestamp) :=
      List.pairwise_reverse.mpr h1
    exact List.Pairwise.sublist (List.take_sublist 5 _) h2
  · intro item hmem hnodup
    have hmap : ((newItemsOf items sentLinks).reverse.map (fun i => i.link)).Nodup := by
      rw [List.map_reverse]
      exact List.nodup_reverse.mpr hnodup
    have hsplit : (newItemsOf items sentLinks).reverse =
        (newItemsOf items sentLinks).reverse.take 5 ++
          (newItemsOf items sentLinks).reverse.drop 5 :=
      (List.take_append_drop 5 _).symm
    rw [hsplit, List.map_append] at hmap
    have hdisj := List.disjoint_of_nodup_append hmap
    have hlink_in_drop : item.link ∈
        ((newItemsOf items sentLinks).reverse.drop 5).map (fun i => i.link) :=
      List.mem_map_of_mem _ hmem
    constructor
    · intro hcontra
      exact hdisj hcontra hlink_in_drop
    · intro batch hbatch hcontra
      obtain ⟨p, hp, hplink, _⟩ := runSendLoop_mem batch item.link hcontra
      have hp1 : p.1 ∈ planPostsToSend items sentLinks := by
        rw [← hbatch]
        exact List.mem_map_of_mem Prod.fst hp
      have hlink_in_take : item.link ∈
          ((newItemsOf items sentLinks).reverse.take 5).map (fun i => i.link) := by
        rw [← hplink]
        exact List.mem_map_of_mem _ hp1
      exact hdisj hlink_in_take hlink_in_drop

/-- Witness for C3 (amended): three unseen items fetched newest-first are
delivered oldest-first. -/
theorem checkSource_candidates_and_cap_witness :
    planPostsToSend [batchItem 3, batchItem 2, batchItem 1] [] =
      [batchItem 1, batchItem 2, batchItem 3] := by
  rw [(checkSource_candidates_and_cap [batchItem 3, batchItem 2, batchItem 1] []).2.1]
  decide

/-- Claim C9: a missing ledger value, malformed JSON, or a parse result that
is not an array (the legacy single-pointer format) is treated as an empty
set of seen identifiers, the check proceeds, and every fetched item becomes
a delivery candidate. -/
theorem checkSource_bad_ledger_starts_fresh (sr : StoredRead)
    (h : sr = StoredRead.missing ∨ sr = StoredRead.malformed ∨
      ∃ j, sr = StoredRead.parsed j ∧ isJsonArray j = false) :
    loadSentLinks sr = [] ∧
    ∀ items : List FeedItem, newItemsOf items (loadSentLinks sr) = items := by
  have hl : loadSentLinks sr = [] := by
    rcases h with h | h | ⟨j, hj, hja⟩
    · subst h; rfl
    · subst h; rfl
    · subst hj
      cases j <;> simp [loadSentLinks, isJsonArray] at hja ⊢
  refine ⟨hl, fun items => ?_⟩
  rw [hl]
  simp [newItemsOf, jsonSetHasStr]

/-- Witness for C9: a stored legacy single-pointer value (a bare JSON
string) leaves every fetched item a candidate. -/
theorem checkSource_bad_ledger_starts_fresh_witness :
    (StoredRead.parsed (Json.str "legacy-last-seen-id") = StoredRead.missing ∨
      StoredRead.parsed (Json.str "legacy-last-seen-id") = StoredRead.malformed ∨
      ∃ j, StoredRead.parsed (Json.str "legacy-last-seen-id") = StoredRead.parsed j ∧
        isJsonArray j = false) ∧
    newItemsOf [dedupMismatchItem]
      (loadSentLinks (StoredRead.parsed (Json.str "legacy-last-seen-id"))) =
      [dedupMismatchItem] :=
  ⟨Or.inr (Or.inr ⟨Json.str "legacy-last-seen-id", rfl, rfl⟩),
    (checkSource_bad_ledger_starts_fresh (StoredRead.parsed (Json.str "legacy-last-seen-id"))
      (Or.inr (Or.inr ⟨Json.str "legacy-last-seen-id", rfl, rfl⟩))).2 [dedupMismatchItem]⟩

/-- Exhibit for C8 (a code bug): the `/seed` command stores the single
newest item id under the legacy `telegram:lastseen:` key, while the cron
dedup reads a JSON array from the `telegram:sent:` ledger key.  After
seeding on a fresh store, the cron read still sees nothing (whatever the
JSON parser does), so the supposedly seen item is planned for delivery
again — the seed does not suppress anything, contradicting both the claim
and the reply text of the command itself. -/
theorem seed_then_cron_still_delivers (jsonParse : String → StoredRead) :
    readSentLinks seededKV jsonParse "-100123" "usr_a1b2c3" = [] ∧
    newItemsOf [seedWitnessItem] (readSentLinks seededKV jsonParse "-100123" "usr_a1b2c3") =
      [seedWitnessItem] ∧
    planPostsToSend [seedWitnessItem]
      (readSentLinks seededKV jsonParse "-100123" "usr_a1b2c3") = [seedWitnessItem] := by
  have hk : sentKeyFor "-100123" "usr_a1b2c3" ≠ lastSeenKeyFor "-100123" "usr_a1b2c3" := by
    decide
  have hread : readSentLinks seededKV jsonParse "-100123" "usr_a1b2c3" = [] := by
    simp [readSentLinks, seededKV, seedSource, setCached, getCached, toStoredRead,
      loadSentLinks, hk]
  refine ⟨hread, ?_, ?_⟩ <;> rw [hread] <;> decide

/-- A filterMap over entries that all produce a value keeps the length. -/
theorem filterMap_length_of_isSome {α β : Type} (f : α → Option β) :
    ∀ l : List α, (∀ x ∈ l, (f x).isSome) → (l.filterMap f).length = l.length := by
  intro l
  induction l with
  | nil => intro _; rfl
  | cons x rest ih =>
    intro h
    have hx := h x (List.mem_cons_self _ _)
    obtain ⟨b, hb⟩ := Option.isSome_iff_exists.mp hx
    rw [List.filterMap_cons, hb]
    simp only [List.length_cons]
    rw [ih (fun y hy => h y (List.mem_cons_of_mem _ hy))]

/-- Exhaustion: when no tier succeeds, `runTiers` returns no nodes and one
recorded error per tier that produced one, after the accumulator. -/
theorem runTiers_all_fail (ts : List (String × TierBehavior)) :
    ∀ acc, (∀ x ∈ ts, tierSuccessNodes x.2 = []) →
      runTiers ts acc =
        { nodes := [],
          errors := acc ++ ts.filterMap (fun x => tierRecordedError x.1 x.2) } := by
  induction ts with
  | nil => intro acc _; simp [runTiers]
  | cons x rest ih =>
    intro acc h
    obtain ⟨name, b⟩ := x
    have hx : tierSuccessNodes b = [] := h _ (List.mem_cons_self _ _)
    simp only [runTiers]
    rw [if_neg (by simp [hx])]
    rw [ih _ (fun y hy => h y (List.mem_cons_of_mem _ hy))]
    congr 1
    rw [List.filterMap_cons]
    cases tierRecordedError name b <;> simp

/-- First success: the first tier with a nonempty node list supplies the
nodes, and the errors are the accumulator plus one per failed earlier tier
that produced one. -/
theorem runTiers_first_success (pre : List (String × TierBehavior))
    (nb : String × TierBehavior) (post : List (String × TierBehavior)) :
    ∀ acc, tierSuccessNodes nb.2 ≠ [] → (∀ x ∈ pre, tierSuccessNodes x.2 = []) →
      runTiers (pre ++ nb :: post) acc =
        { nodes := tierSuccessNodes nb.2,
          errors := acc ++ pre.filterMap (fun x => tierRecordedError x.1 x.2) } := by
  induction pre with
  | nil =>
    intro acc hnb _
    obtain ⟨name, b⟩ := nb
    simp only [List.nil_append, runTiers]
    rw [if_pos hnb]
    simp
  | cons x rest ih =>
    intro acc hnb hpre
    obtain ⟨name, b⟩ := x
    have hx : tierSuccessNodes b = [] := hpre _ (List.mem_cons_self _ _)
    simp only [List.cons_append, runTiers]
    rw [if_neg (by simp [hx])]
    rw [List.append_eq]
    rw [ih _ hnb (fun y hy => hpre y (List.mem_cons_of_mem _ hy))]
    congr 1
    rw [List.filterMap_cons]
    cases tierRecordedError name b <;> simp

/-- Exhaustion for the RSS-Bridge instance loop: when every instance comes
back empty, the result is empty items with all accumulated retagged errors
(or the placeholder when there are none). -/
theorem rssGo_all_fail (fetchFeedAt : String → FetchResult) (insts : List String) :
    ∀ acc, (∀ i ∈ insts, (fetchFeedAt i).items = []) →
      fetchFromRSSBridgeInstancesGo fetchFeedAt insts acc =
        { items := [], feedTitle := "", feedLink := ""
          errors :=
            if (acc ++ (insts.map
                (fun i => (fetchFeedAt i).errors.map (retagError i))).flatten).length = 0 then
              [rssBridgeEmptyError]
            else
              acc ++ (insts.map
                (fun i => (fetchFeedAt i).errors.map (retagError i))).flatten } := by
  induction insts with
  | nil => intro acc _; simp [fetchFromRSSBridgeInstancesGo]
  | cons inst rest ih =>
    intro acc h
    have hi : (fetchFeedAt inst).items = [] := h _ (List.mem_cons_self _ _)
    simp only [fetchFromRSSBridgeInstancesGo]
    rw [if_neg (by simp [hi])]
    rw [ih _ (fun j hj => h j (List.mem_cons_of_mem _ hj))]
    congr 2 <;> simp [List.append_assoc]

/-- First success for the RSS-Bridge instance loop: the first instance with
items wins; its items are capped and only its own errors are kept — the
accumulated errors of earlier instances are discarded. -/
theorem rssGo_first_success (fetchFeedAt : String → FetchResult)
    (pre : List String) (inst : String) (post : List String) :
    ∀ acc, (fetchFeedAt inst).items ≠ [] → (∀ j ∈ pre, (fetchFeedAt j).items = []) →
      fetchFromRSSBridgeInstancesGo fetchFeedAt (pre ++ inst :: post) acc =
        { items := (fetchFeedAt inst).items.take RSS_ITEMS_LIMIT
          feedTitle := (fetchFeedAt inst).feedTitle
          feedLink := (fetchFeedAt inst).feedLink
          errors := (fetchFeedAt inst).errors } := by
  induction pre with
  | nil =>
    intro acc hinst _
    simp only [List.nil_append, fetchFromRSSBridgeInstancesGo]
    rw [if_pos (by simpa [List.length_pos] using hinst)]
  | cons j rest ih =>
    intro acc hinst hpre
    have hj : (fetchFeedAt j).items = [] := hpre _ (List.mem_cons_self _ _)
    simp only [List.cons_append, fetchFromRSSBridgeInstancesGo]
    rw [if_neg (by simp [hj])]
    exact ih _ hinst (fun y hy => hpre y (List.mem_cons_of_mem _ hy))

/-- Claim C2 (amended for the instance-failover path): fetch is total — an
upstream failure yields a result, never an exception — and tiers are
attempted in strict priority order; the first tier with at least one item
supplies the items.  In `fetchInstagramData` the successful result carries
one recorded TierError per previously failed tier (every error-producing
failed tier contributes exactly one), and only when every tier is exhausted
does it return an empty node list with all accumulated errors.  In the
RSS-Bridge instance failover, exhaustion likewise returns empty items with
every accumulated retagged instance error (or a placeholder when none), but
a successful result keeps only the winning instance's own errors — the
errors of previously failed instances are discarded, not reported. -/
theorem fetch_tier_failover (ctx : FeedContextType) (t1 t2 t3 t4 : TierBehavior) :
    ((∀ x ∈ applicableTiers ctx t1 t2 t3 t4, tierSuccessNodes x.2 = []) →
      fetchInstagramData ctx t1 t2 t3 t4 =
        { nodes := []
          errors := (applicableTiers ctx t1 t2 t3 t4).filterMap
            (fun x => tierRecordedError x.1 x.2) }) ∧
    (∀ pre nb post, applicableTiers ctx t1 t2 t3 t4 = pre ++ nb :: post →
      tierSuccessNodes nb.2 ≠ [] → (∀ x ∈ pre, tierSuccessNodes x.2 = []) →
      fetchInstagramData ctx t1 t2 t3 t4 =
        { nodes := tierSuccessNodes nb.2
          errors := pre.filterMap (fun x => tierRecordedError x.1 x.2) } ∧
      ((∀ x ∈ pre, (tierRecordedError x.1 x.2).isSome) →
        (fetchInstagramData ctx t1 t2 t3 t4).errors.length = pre.length)) ∧
    (∀ fetchFeedAt : String → FetchResult,
      (∀ i ∈ RSS_BRIDGE_INSTANCES, (fetchFeedAt i).items = []) →
      (fetchFromRSSBridgeInstances fetchFeedAt).items = [] ∧
      (fetchFromRSSBridgeInstances fetchFeedAt).errors =
        (if ((RSS_BRIDGE_INSTANCES.map
              (fun i => (fetchFeedAt i).errors.map (retagError i))).flatten).length = 0 then
          [rssBridgeEmptyError]
        else (RSS_BRIDGE_INSTANCES.map
              (fun i => (fetchFeedAt i).errors.map (retagError i))).flatten)) ∧
    (∀ fetchFeedAt : String → FetchResult, ∀ pre inst post,
      RSS_BRIDGE_INSTANCES = pre ++ inst :: post →
      (fetchFeedAt inst).items ≠ [] → (∀ j ∈ pre, (fetchFeedAt j).items = []) →
      fetchFromRSSBridgeInstances fetchFeedAt =
        { items := (fetchFeedAt inst).items.take RSS_ITEMS_LIMIT
          feedTitle := (fetchFeedAt inst).feedTitle
          feedLink := (fetchFeedAt inst).feedLink
          errors := (fetchFeedAt inst).errors }) := by
  refine ⟨?_, ?_, ?_, ?_⟩
  · intro h
    unfold fetchInstagramData
    rw [runTiers_all_fail _ [] h]
    simp
  · intro pre nb post hsplit hnb hpre
    have ha : fetchInstagramData ctx t1 t2 t3 t4 =
        { nodes := tierSuccessNodes nb.2
          errors := pre.filterMap (fun x => tierRecordedError x.1 x.2) } := by
      unfold fetchInstagramData
      rw [hsplit, runTiers_first_success pre nb post [] hnb hpre]
      simp
    refine ⟨ha, fun hsome => ?_⟩
    rw [ha]
    exact filterMap_length_of_isSome _ pre hsome
  · intro fetchFeedAt h
    unfold fetchFromRSSBridgeInstances
    rw [rssGo_all_fail fetchFeedAt RSS_BRIDGE_INSTANCES [] h]
    simp
  · intro fetchFeedAt pre inst post hsplit hinst hpre
    unfold fetchFromRSSBridgeInstances
    rw [hsplit]
    exact rssGo_first_success fetchFeedAt pre inst post [] hinst hpre

/-- Counterexample for C2 as stated: tier 1 (first RSS-Bridge instance)
fails with HTTP 403 and tier 2 (second instance) returns two valid items;
the fetch result contains those two items but ZERO recorded TierErrors —
the 403 of the previously failed tier is discarded, where the claim
requires exactly one recorded TierError. -/
theorem fetch_tier_failover_counterexample :
    (fetchFromRSSBridgeInstances rssScenarioFetch).items = [batchItem 1, batchItem 2] ∧
    (fetchFromRSSBridgeInstances rssScenarioFetch).errors = [] := by
  exact ⟨by decide, by decide⟩

/-- Witness for C2 (amended), the Instagram-client side of the scenario:
tier 1 fails with 403, tier 2 returns two nodes, and the result carries the
two nodes together with exactly the tier-1 error. -/
theorem fetch_tier_failover_witness :
    fetchInstagramData FeedContextType.username
      (TierBehavior.returns { nodes := none, error := some tier1Error403 })
      (TierBehavior.returns { nodes := some twoNodes, error := none })
      (TierBehavior.returns {}) (TierBehavior.returns {}) =
      { nodes := twoNodes, errors := [tier1Error403] } := by
  have h := (fetch_tier_failover FeedContextType.username
      (TierBehavior.returns { nodes := none, error := some tier1Error403 })
      (TierBehavior.returns { nodes := some twoNodes, error := none })
      (TierBehavior.returns {}) (TierBehavior.returns {})).2.1
    [("REST API", TierBehavior.returns { nodes := none, error := some tier1Error403 })]
    ("GraphQL GET", TierBehavior.returns { nodes := some twoNodes, error := none })
    [("GraphQL POST", TierBehavior.returns {}), ("Embed", TierBehavior.returns {})]
    rfl (by decide) (by decide)
  rw [h.1]
  decide

/-- Counterexample for C7: when both the stable upstream identifier and the
canonical link are absent, the normalizer assigns the constant empty string
— not a content hash.  Two entries with different content receive the same
empty id, so the final fallback does not depend on the content at all (and
two distinct posts collide, exactly what the claimed hash fallback is there
to prevent). -/
theorem parse_id_fallback_not_content_hash :
    (parseAtomEntry noIdEntryA constDateMs "F" "L").id = "" ∧
    (parseAtomEntry noIdEntryB constDateMs "F" "L").id = "" ∧
    noIdEntryA.contentText ≠ noIdEntryB.contentText ∧
    (parseAtomEntry noIdEntryA constDateMs "F" "L").id =
      (parseAtomEntry noIdEntryB constDateMs "F" "L").id := by
  refine ⟨?_, ?_, ?_, ?_⟩ <;> decide

/-- Claim C7 (amended: the final fallback is the empty string, not a content
hash): both normalizers assign the item id by preferring the stable upstream
identifier (Atom entry id / RSS guid, trimmed), falling back to the
canonical link, falling back to the empty string; and the id is a
deterministic function of the entry alone — it never depends on the date
parser or feed metadata (no freshly generated random value), so two fetches
of the same entry always produce the same id. -/
theorem parse_item_id_cascade (e : AtomEntryData) (r : RSSItemData)
    (dateMs : String → Int) (feedTitle feedLink : String) :
    (jsTrim e.idText ≠ "" →
      (parseAtomEntry e dateMs feedTitle feedLink).id = jsTrim e.idText) ∧
    (jsTrim e.idText = "" →
      jsOrOpt e.linkAlternateHref (jsOrOpt e.linkHref "") ≠ "" →
      (parseAtomEntry e dateMs feedTitle feedLink).id =
        jsOrOpt e.linkAlternateHref (jsOrOpt e.linkHref "")) ∧
    (jsTrim e.idText = "" → jsOrOpt e.linkAlternateHref (jsOrOpt e.linkHref "") = "" →
      (parseAtomEntry e dateMs feedTitle feedLink).id = "") ∧
    (∀ dateMs2 feedTitle2 feedLink2,
      (parseAtomEntry e dateMs feedTitle feedLink).id =
        (parseAtomEntry e dateMs2 feedTitle2 feedLink2).id) ∧
    (jsTrim r.guidText ≠ "" →
      (parseRSSItem r dateMs feedTitle feedLink).id = jsTrim r.guidText) ∧
    (jsTrim r.guidText = "" → jsTrim r.linkText ≠ "" →
      (parseRSSItem r dateMs feedTitle feedLink).id = jsTrim r.linkText) ∧
    (jsTrim r.guidText = "" → jsTrim r.linkText = "" →
      (parseRSSItem r dateMs feedTitle feedLink).id = "") ∧
    (∀ dateMs2 feedTitle2 feedLink2,
      (parseRSSItem r dateMs feedTitle feedLink).id =
        (parseRSSItem r dateMs2 feedTitle2 feedLink2).id) := by
  refine ⟨?_, ?_, ?_, fun _ _ _ => rfl, ?_, ?_, ?_, fun _ _ _ => rfl⟩
  · intro h
    simp [parseAtomEntry, jsOrStr, h]
  · intro h1 h2
    simp [parseAtomEntry, jsOrStr, h1, h2]
  · intro h1 h2
    simp [parseAtomEntry, jsOrStr, h1, h2]
  · intro h
    simp [parseRSSItem, jsOrStr, h]
  · intro h1 h2
    simp [parseRSSItem, jsOrStr, h1, h2]
  · intro h1 h2
    simp [parseRSSItem, jsOrStr, h1, h2]

/-- Witness for C7 (amended): a concrete Atom entry with a stable id keeps
that id (trimmed), and a concrete RSS item with a guid keeps the guid even
though its link differs. -/
theorem parse_item_id_cascade_witness :
    (parseAtomEntry atomEntryWithId constDateMs "F" "L").id = "tag:rss-bridge,2024:p1" ∧
    (parseRSSItem rssItemWithGuid constDateMs "F" "L").id = "guid-42" := by
  constructor
  · rw [(parse_item_id_cascade atomEntryWithId rssItemWithGuid constDateMs "F" "L").1
      (by decide)]
    decide
  · rw [(parse_item_id_cascade atomEntryWithId rssItemWithGuid constDateMs "F" "L").2.2.2.2.1
      (by decide)]
    decide
